import Mathlib

/-!
# Verification of the MaxFlash signal pipeline against its specification

Shallow embedding of the directional rule table (`signal_direction_logic.py`,
`SignalDirection.determine_direction`), the contradiction validator
(`signal_validator.py`, `SignalQualityChecker.validate_and_fix`), the Cython
scoring and feature helpers (`cython_ext` `calculate_signal_score`,
`calculate_rsi`) and the look-ahead-free labeling routine, with theorems
settling the claims about them.

Python floats are embedded as rationals (`ℚ`); Python strings for directions
and trend states are kept as Lean `String`s, matching the source.  The
human-readable `reason` / issue message strings of the source carry no
control-flow information; issue messages are embedded as an inductive tag per
check (`Issue`) and the rule table's `reason` string is dropped.
-/

/-- Python's two-argument `max` builtin, on rationals. -/
def pymax (a b : ℚ) : ℚ := if a ≤ b then b else a

/-- Python's two-argument `min` builtin, on rationals. -/
def pymin (a b : ℚ) : ℚ := if a ≤ b then a else b

/-- Python `int()` applied to a float: truncation toward zero. -/
def pyTrunc (q : ℚ) : ℤ :=
  if 0 ≤ q then ⌊q⌋ else -⌊-q⌋

/-- One tag per check of `SignalQualityChecker.validate_and_fix`, standing for
the formatted message the Python code appends to `result['issues']`. -/
inductive Issue where
  | sellOversold        -- ПРОВЕРКА 1: SELL при RSI < 35
  | buyOverbought       -- ПРОВЕРКА 2: BUY при RSI > 75
  | sellPositiveMacd    -- ПРОВЕРКА 3: SELL при MACD+ (> 0.0005)
  | neutralOverconf     -- ПРОВЕРКА 4: завышение при нейтральном RSI
  | volatileDrop        -- ПРОВЕРКА 5: падение > 30% за 24h
  | lowVolume           -- ПРОВЕРКА 6: объём < 0.3 от среднего
  deriving DecidableEq, Repr

/-- The `result` dict built by `SignalQualityChecker.validate_and_fix`. -/
structure ValidateResult where
  symbol : String
  original_signal : String
  original_confidence : ℚ
  final_signal : String
  final_confidence : ℚ
  was_inverted : Bool
  issues : List Issue
  is_valid : Bool
  deriving DecidableEq, Repr

/-- `SignalQualityChecker.validate_and_fix` from `signal_validator.py`:
an `elif` chain of six checks over the input signal and market state,
followed by a final clamp of the confidence into [0, 100]. -/
def validate_and_fix (symbol signal_direction : String) (confidence rsi
    macd_histogram price_change_24h volume_ratio : ℚ) : ValidateResult :=
  let base : ValidateResult :=
    { symbol := symbol
      original_signal := signal_direction
      original_confidence := confidence
      final_signal := signal_direction
      final_confidence := confidence
      was_inverted := false
      issues := []
      is_valid := true }
  let r : ValidateResult :=
    if signal_direction = "SELL" ∧ rsi < 35 then
      { base with final_signal := "BUY"
                  final_confidence := pymax (confidence - 20) 30
                  was_inverted := true
                  issues := [.sellOversold]
                  is_valid := false }
    else if signal_direction = "BUY" ∧ rsi > 75 then
      { base with final_signal := "SELL"
                  final_confidence := pymax (confidence - 20) 30
                  was_inverted := true
                  issues := [.buyOverbought]
                  is_valid := false }
    else if signal_direction = "SELL" ∧ macd_histogram > 0.0005 then
      { base with final_confidence := base.final_confidence - 20
                  issues := [.sellPositiveMacd] }
    else if 50 ≤ rsi ∧ rsi ≤ 55 ∧ confidence > 70 then
      { base with final_confidence := 50
                  issues := [.neutralOverconf] }
    else if price_change_24h < -30 then
      { base with final_signal := "WAIT"
                  final_confidence := 0
                  issues := [.volatileDrop]
                  is_valid := false }
    else if volume_ratio < 0.3 then
      { base with final_confidence := (pyTrunc (base.final_confidence * 0.5) : ℚ)
                  issues := [.lowVolume] }
    else base
  { r with final_confidence := pymax 0 (pymin 100 r.final_confidence) }

/-- `SignalDirection.determine_direction` from `signal_direction_logic.py`:
the ordered rule table over oscillator (RSI), momentum (MACD) and trend
state.  Returns the pair `(signal_direction, confidence_adjustment)`; the
third component of the Python tuple, the `reason` string, is dropped. -/
def determine_direction (rsi macd_histogram macd_line signal_line : ℚ)
    (price_trend : String) (_confidence : ℚ) : String × ℚ :=
  -- ПРАВИЛО 1: перепроданность (RSI < 30) = всегда BUY
  if rsi < 30 then
    if macd_histogram > 0 then ("BUY", 20)
    else if macd_line > signal_line then ("BUY", 15)
    else ("BUY", 10)
  -- ПРАВИЛО 2: перекупленность (RSI > 70) = всегда SELL
  else if rsi > 70 then
    if macd_histogram < 0 then ("SELL", 20)
    else if macd_line < signal_line then ("SELL", 15)
    else ("SELL", 10)
  -- ПРАВИЛО 3: bullish MACD cross при нейтральном RSI
  else if macd_histogram > 0.002 ∧ macd_line > signal_line ∧
      30 ≤ rsi ∧ rsi ≤ 70 then ("BUY", 15)
  -- ПРАВИЛО 4: bearish MACD cross при нейтральном RSI
  else if macd_histogram < -0.002 ∧ macd_line < signal_line ∧
      30 ≤ rsi ∧ rsi ≤ 70 then ("SELL", 15)
  -- ПРАВИЛО 5: подтверждение тренда
  else if price_trend = "uptrend" ∧ macd_histogram > 0 ∧ rsi < 70 then
    ("BUY", 10)
  else if price_trend = "downtrend" ∧ macd_histogram < 0 ∧ rsi > 30 then
    ("SELL", 10)
  -- ПРАВИЛО 6: нейтральная зона
  else ("NEUTRAL", 0)

/-- Price deltas of `calculate_rsi` (`cython_ext/feature_calc.pyx`):
`deltas[i] = prices[i+1] - prices[i]`. -/
def deltas (prices : List ℚ) : List ℚ :=
  List.zipWith (fun a b => b - a) prices (prices.drop 1)

/-- Per-delta gains of `calculate_rsi`: the positive part of each delta. -/
def gains (prices : List ℚ) : List ℚ :=
  (deltas prices).map (fun d => if d > 0 then d else 0)

/-- Per-delta losses of `calculate_rsi`: the negative part of each delta. -/
def losses (prices : List ℚ) : List ℚ :=
  (deltas prices).map (fun d => if d > 0 then 0 else -d)

/-- The inner accumulation loop of `calculate_rsi`: the average of the
`period` consecutive entries of `l` starting at index `i`. -/
def windowAvg (l : List ℚ) (i period : ℕ) : ℚ :=
  ((l.drop i).take period).sum / period

/-- `calculate_rsi` from `cython_ext/feature_calc.pyx`: for each start index
`i < n - period`, average gains and losses over the window of length
`period`, then `rsi = 100` when the average loss is zero and
`100 - 100/(1 + rs)` with `rs = avg_gain / avg_loss` otherwise. -/
def calculate_rsi (prices : List ℚ) (period : ℕ) : List ℚ :=
  (List.range (prices.length - period)).map (fun i =>
    let avg_gain := windowAvg (gains prices) i period
    let avg_loss := windowAvg (losses prices) i period
    if avg_loss = 0 then 100
    else 100 - 100 / (1 + avg_gain / avg_loss))

/-- `calculate_signal_score` from the Cython scoring module: fixed-weight
blend of the four component scores, clamped into [0, 1]. -/
def calculate_signal_score (safety_score liquidity_score volume_score
    lp_score : ℚ) : ℚ :=
  let score := safety_score * 0.4 + liquidity_score * 0.3 +
    volume_score * 0.2 + lp_score * 0.1
  pymin 1 (pymax 0 score)

/-- Exponential moving average over a close series, seeded at the first
element, smoothing factor `2 / (period + 1)`. -/
def ema (period : ℕ) (l : List ℚ) : ℚ :=
  l.foldl (fun acc x => acc + (2 / ((period : ℚ) + 1)) * (x - acc)) (l.headD 0)

/-- RSI value at the last bar of a close-price window: the final entry of
`calculate_rsi` with the standard period 14 (neutral 50 when unavailable). -/
def rsiAt (closes : List ℚ) : ℚ := (calculate_rsi closes 14).getLastD 50

/-- MACD line at the last bar: EMA(12) minus EMA(26) of the closes. -/
def macdAt (closes : List ℚ) : ℚ := ema 12 closes - ema 26 closes

/-- MACD signal line at the last bar: EMA(9) of the MACD values of each
close-price window ending at or before the last bar. -/
def signalAt (closes : List ℚ) : ℚ :=
  ema 9 ((List.range closes.length).map (fun j => macdAt (closes.take (j + 1))))

/-- Position of the last close inside the rolling 20-bar price range,
standing for the Bollinger-band position of the labeling routine (kept
rational; 0 = range low, 1 = range high, 0.5 for a degenerate range). -/
def bbPosAt (closes : List ℚ) : ℚ :=
  let w := closes.drop (closes.length - 20)
  let lo := w.foldr pymin (w.headD 0)
  let hi := w.foldr pymax (w.headD 0)
  if hi = lo then 0.5 else (closes.getLastD 0 - lo) / (hi - lo)

/-- The three target classes of the labeling routine. -/
inductive Label where
  | sell
  | hold
  | buy
  deriving DecidableEq, Repr

/-- Modelled from the spec: `ml/labeling_fixed.py` / `create_realistic_labels`
is present in the repository only as the documentation excerpt in the fixes
summary ("Use ONLY current indicators (no future data)", loop starting at
bar 50, `labels[i] = BUY` when `current_rsi < 30 and current_macd > signal
and current_bb_pos < 0.2`).  The label of bar `i` is computed from the
indicator values of the close-price series truncated at bar `i`, with the
symmetric SELL rule and HOLD otherwise, per the spec's
{SELL, HOLD, BUY} classes "computed strictly from information available at
or before that bar's close". -/
def labelAt (closes : List ℚ) (i : ℕ) : Label :=
  if i < 50 then .hold
  else
    let pre := closes.take (i + 1)
    if rsiAt pre < 30 ∧ macdAt pre > signalAt pre ∧ bbPosAt pre < 0.2 then
      .buy
    else if rsiAt pre > 70 ∧ macdAt pre < signalAt pre ∧ bbPosAt pre > 0.8 then
      .sell
    else .hold

/-- Modelled from the spec: the per-bar labeling loop of
`create_realistic_labels` (`for i in range(50, n)` over an array of `n`
labels, bars before 50 keeping the initial HOLD). -/
def create_realistic_labels (closes : List ℚ) : List Label :=
  (List.range closes.length).map (labelAt closes)

lemma pymax_eq_max (a b : ℚ) : pymax a b = max a b := by
  unfold pymax; rw [max_def]

lemma pymin_eq_min (a b : ℚ) : pymin a b = min a b := by
  unfold pymin; rw [min_def]

lemma clamp_mem (x : ℚ) :
    0 ≤ pymax 0 (pymin 100 x) ∧ pymax 0 (pymin 100 x) ≤ 100 := by
  unfold pymax pymin
  split_ifs <;> constructor <;> linarith

/-- C8: for every input to the Signal Validator (any direction, any
confidence value, any oscillator/momentum/price-change/volume state), the
final confidence of the returned result lies in the closed interval
[0, 100]. -/
theorem final_confidence_in_range (s d : String) (c r m p v : ℚ) :
    0 ≤ (validate_and_fix s d c r m p v).final_confidence ∧
    (validate_and_fix s d c r m p v).final_confidence ≤ 100 := by
  unfold validate_and_fix
  exact clamp_mem _

/-- C2, counterexample: a signal that is overconfident in the neutral
oscillator band (RSI 52, confidence 90 > 70) and has abnormally low relative
volume (ratio 0.2 < 0.3) receives only the neutral-ceiling clamp; the volume
scale-down check is skipped, so the checks are not all applied in the same
run. -/
theorem volume_check_skipped_when_neutral_clamp_fires :
    (0.2 : ℚ) < 0.3 ∧ (50 : ℚ) ≤ 52 ∧ (52 : ℚ) ≤ 55 ∧ (90 : ℚ) > 70 ∧
    (validate_and_fix "BTC" "BUY" 90 52 0 0 0.2).final_confidence = 50 ∧
    Issue.lowVolume ∉ (validate_and_fix "BTC" "BUY" 90 52 0 0 0.2).issues := by
  norm_num [validate_and_fix, pymax, pymin]
  decide

/-- C2, amended: the validator's checks are mutually exclusive short-circuits
evaluated in a fixed order — at most one check is applied per run, and when
both the neutral-ceiling condition and the low-volume condition hold (and no
earlier check applies), only the neutral-ceiling clamp takes effect. -/
theorem validator_at_most_one_check (s d : String) (c r m p v : ℚ) :
    (validate_and_fix s d c r m p v).issues.length ≤ 1 ∧
    (50 ≤ r → r ≤ 55 → c > 70 → v < 0.3 → d ≠ "SELL" →
      (validate_and_fix s d c r m p v).final_confidence = 50 ∧
      (validate_and_fix s d c r m p v).issues = [.neutralOverconf]) := by
  constructor
  · unfold validate_and_fix
    dsimp only
    split_ifs <;> simp
  · intro h1 h2 h3 h4 hd
    unfold validate_and_fix
    dsimp only
    rw [if_neg (by tauto), if_neg (by rintro ⟨rfl, hr⟩; linarith),
      if_neg (by tauto), if_pos ⟨h1, h2, h3⟩]
    constructor
    · norm_num [pymax, pymin]
    · rfl

theorem validator_at_most_one_check_witness :
    (validate_and_fix "BTC" "BUY" 90 52 0 0 0.2).final_confidence = 50 ∧
    (validate_and_fix "BTC" "BUY" 90 52 0 0 0.2).issues = [.neutralOverconf] :=
  (validator_at_most_one_check "BTC" "BUY" 90 52 0 0 0.2).2 (by norm_num)
    (by norm_num) (by norm_num) (by norm_num) (by simp)

/-- C3, counterexample: with a 24-hour price change of −35% (beyond the −30%
cutoff) but an original SELL signal during extreme oversold (RSI 30), the
inversion check fires first and the extreme-volatility check is skipped: the
final direction is BUY with confidence 60, not WAIT with confidence 0. -/
theorem extreme_drop_preempted_by_inversion :
    ((-35 : ℚ) < -30) ∧
    (validate_and_fix "BTC" "SELL" 80 30 0 (-35) 1).final_signal = "BUY" ∧
    (validate_and_fix "BTC" "SELL" 80 30 0 (-35) 1).final_confidence = 60 := by
  norm_num [validate_and_fix, pymax, pymin]

/-- C3, amended: a 24-hour price change of −35% forces final direction WAIT
and final confidence 0 provided no earlier check of the chain applies — the
signal is not SELL with RSI < 35, not BUY with RSI > 75, not SELL with MACD
histogram above 0.0005, and not an overconfident neutral-band signal. -/
theorem extreme_drop_forces_wait_when_unpreempted (s d : String) (c r m v : ℚ)
    (h1 : ¬(d = "SELL" ∧ r < 35)) (h2 : ¬(d = "BUY" ∧ r > 75))
    (h3 : ¬(d = "SELL" ∧ m > 0.0005)) (h4 : ¬(50 ≤ r ∧ r ≤ 55 ∧ c > 70)) :
    (validate_and_fix s d c r m (-35) v).final_signal = "WAIT" ∧
    (validate_and_fix s d c r m (-35) v).final_confidence = 0 ∧
    (validate_and_fix s d c r m (-35) v).is_valid = false := by
  unfold validate_and_fix
  dsimp only
  rw [if_neg h1, if_neg h2, if_neg h3, if_neg h4, if_pos (by norm_num)]
  refine ⟨rfl, ?_, rfl⟩
  norm_num [pymax, pymin]

theorem extreme_drop_forces_wait_witness :
    (validate_and_fix "BTC" "BUY" 60 60 0 (-35) 1).final_signal = "WAIT" ∧
    (validate_and_fix "BTC" "BUY" 60 60 0 (-35) 1).final_confidence = 0 ∧
    (validate_and_fix "BTC" "BUY" 60 60 0 (-35) 1).is_valid = false :=
  extreme_drop_forces_wait_when_unpreempted "BTC" "BUY" 60 60 0 1
    (by simp) (by norm_num) (by simp) (by norm_num)

/-- C7, counterexample: with RSI 52 and raw confidence 90 but direction SELL
and MACD histogram 0.001 > 0.0005, the SELL-with-positive-MACD check fires
first, giving final confidence 70 instead of the neutral ceiling 50. -/
theorem neutral_clamp_preempted_by_macd_check :
    (validate_and_fix "BTC" "SELL" 90 52 0.001 0 1).final_confidence = 70 ∧
    (validate_and_fix "BTC" "SELL" 90 52 0.001 0 1).final_confidence ≠ 50 := by
  norm_num [validate_and_fix, pymax, pymin]

/-- C7, amended: for every raw signal with oscillator reading 52 and raw
confidence 90, the validator returns final confidence 50 provided the signal
is not a SELL with MACD histogram above 0.0005 (the earlier
momentum-contradiction check, which otherwise takes precedence). -/
theorem neutral_clamp_when_unpreempted (s d : String) (m p v : ℚ)
    (h : ¬(d = "SELL" ∧ m > 0.0005)) :
    (validate_and_fix s d 90 52 m p v).final_confidence = 50 := by
  unfold validate_and_fix
  dsimp only
  rw [if_neg (by rintro ⟨rfl, hr⟩; norm_num at hr),
    if_neg (by rintro ⟨rfl, hr⟩; norm_num at hr), if_neg h,
    if_pos ⟨by norm_num, by norm_num, by norm_num⟩]
  norm_num [pymax, pymin]

theorem neutral_clamp_witness :
    (validate_and_fix "BTC" "BUY" 90 52 0 0 1).final_confidence = 50 :=
  neutral_clamp_when_unpreempted "BTC" "BUY" 0 0 1 (by simp)

/-- C4, counterexample: validation is not idempotent.  A SELL signal with
confidence 80, RSI 60 and MACD histogram 0.001 gets the momentum penalty,
yielding final SELL with confidence 60; feeding that output back with the
same market state applies the same penalty again and yields confidence 40. -/
theorem validator_not_idempotent :
    (validate_and_fix "BTC" "SELL" 80 60 0.001 0 1).final_signal = "SELL" ∧
    (validate_and_fix "BTC" "SELL" 80 60 0.001 0 1).final_confidence = 60 ∧
    (validate_and_fix "BTC" "SELL" 60 60 0.001 0 1).final_confidence
      ≠ (validate_and_fix "BTC" "SELL" 80 60 0.001 0 1).final_confidence := by
  norm_num [validate_and_fix, pymax, pymin]

/-- C4, amended: validation is idempotent for every input on which no check
condition holds (the validator flags no issue): revalidating the output with
the same oscillator, momentum, price-change and volume state returns the
same final direction and the same final confidence. -/
theorem validator_idempotent_when_clean (s d : String) (c r m p v : ℚ)
    (h1 : ¬(d = "SELL" ∧ r < 35)) (h2 : ¬(d = "BUY" ∧ r > 75))
    (h3 : ¬(d = "SELL" ∧ m > 0.0005)) (h4 : ¬(50 ≤ r ∧ r ≤ 55 ∧ c > 70))
    (h5 : ¬(p < -30)) (h6 : ¬(v < 0.3)) :
    (validate_and_fix s (validate_and_fix s d c r m p v).final_signal
        (validate_and_fix s d c r m p v).final_confidence r m p v).final_signal
      = (validate_and_fix s d c r m p v).final_signal ∧
    (validate_and_fix s (validate_and_fix s d c r m p v).final_signal
        (validate_and_fix s d c r m p v).final_confidence r m p
        v).final_confidence
      = (validate_and_fix s d c r m p v).final_confidence := by
  have hfirst_sig : (validate_and_fix s d c r m p v).final_signal = d := by
    unfold validate_and_fix
    dsimp only
    rw [if_neg h1, if_neg h2, if_neg h3, if_neg h4, if_neg h5, if_neg h6]
  have hfirst_conf : (validate_and_fix s d c r m p v).final_confidence
      = pymax 0 (pymin 100 c) := by
    unfold validate_and_fix
    dsimp only
    rw [if_neg h1, if_neg h2, if_neg h3, if_neg h4, if_neg h5, if_neg h6]
  rw [hfirst_sig, hfirst_conf]
  have h4' : ¬(50 ≤ r ∧ r ≤ 55 ∧ pymax 0 (pymin 100 c) > 70) := by
    rintro ⟨ha, hb, hc⟩
    refine h4 ⟨ha, hb, ?_⟩
    unfold pymax pymin at hc
    split_ifs at hc <;> linarith
  constructor
  · unfold validate_and_fix
    dsimp only
    rw [if_neg h1, if_neg h2, if_neg h3, if_neg h4', if_neg h5, if_neg h6]
  · have hsecond : (validate_and_fix s d (pymax 0 (pymin 100 c)) r m p
        v).final_confidence = pymax 0 (pymin 100 (pymax 0 (pymin 100 c))) := by
      unfold validate_and_fix
      dsimp only
      rw [if_neg h1, if_neg h2, if_neg h3, if_neg h4', if_neg h5, if_neg h6]
    rw [hsecond]
    unfold pymax pymin
    split_ifs <;> linarith

theorem validator_idempotent_witness :
    (validate_and_fix "BTC"
        (validate_and_fix "BTC" "BUY" 50 60 0 0 1).final_signal
        (validate_and_fix "BTC" "BUY" 50 60 0 0 1).final_confidence 60 0 0
        1).final_signal
      = (validate_and_fix "BTC" "BUY" 50 60 0 0 1).final_signal ∧
    (validate_and_fix "BTC"
        (validate_and_fix "BTC" "BUY" 50 60 0 0 1).final_signal
        (validate_and_fix "BTC" "BUY" 50 60 0 0 1).final_confidence 60 0 0
        1).final_confidence
      = (validate_and_fix "BTC" "BUY" 50 60 0 0 1).final_confidence :=
  validator_idempotent_when_clean "BTC" "BUY" 50 60 0 0 1 (by simp)
    (by norm_num) (by simp) (by norm_num) (by norm_num) (by norm_num)

/-- C6, counterexample: a SELL signal with raw confidence 40 during extreme
oversold (RSI 30 < 35) is inverted to BUY, flagged and invalidated, but its
final confidence is 30 — the penalty is floored at 30, so the confidence is
not reduced by the fixed 20 points (40 − 20 = 20 ≠ 30). -/
theorem inversion_penalty_floored :
    ((30 : ℚ) < 35) ∧
    (validate_and_fix "BTC" "SELL" 40 30 0 0 1).final_signal = "BUY" ∧
    (validate_and_fix "BTC" "SELL" 40 30 0 0 1).was_inverted = true ∧
    (validate_and_fix "BTC" "SELL" 40 30 0 0 1).is_valid = false ∧
    (validate_and_fix "BTC" "SELL" 40 30 0 0 1).final_confidence = 30 ∧
    (validate_and_fix "BTC" "SELL" 40 30 0 0 1).final_confidence ≠ 40 - 20 := by
  norm_num [validate_and_fix, pymax, pymin]

/-- C6, amended: every SELL evaluated while RSI < 35 is inverted to BUY,
flagged (`was_inverted`), marked invalid, and its final confidence is
`min 100 (max (confidence − 20) 30)` — the 20-point penalty floored at 30
and clamped at 100; symmetrically every BUY while RSI > 75 is inverted to
SELL with the same flags and confidence formula. -/
theorem inversion_behavior :
    (∀ (s : String) (c r m p v : ℚ), r < 35 →
      (validate_and_fix s "SELL" c r m p v).final_signal = "BUY" ∧
      (validate_and_fix s "SELL" c r m p v).was_inverted = true ∧
      (validate_and_fix s "SELL" c r m p v).is_valid = false ∧
      (validate_and_fix s "SELL" c r m p v).final_confidence
        = min 100 (max (c - 20) 30)) ∧
    (∀ (s : String) (c r m p v : ℚ), r > 75 →
      (validate_and_fix s "BUY" c r m p v).final_signal = "SELL" ∧
      (validate_and_fix s "BUY" c r m p v).was_inverted = true ∧
      (validate_and_fix s "BUY" c r m p v).is_valid = false ∧
      (validate_and_fix s "BUY" c r m p v).final_confidence
        = min 100 (max (c - 20) 30)) := by
  have key : ∀ c : ℚ, pymax 0 (pymin 100 (pymax (c - 20) 30))
      = min 100 (max (c - 20) 30) := by
    intro c
    rw [pymax_eq_max, pymax_eq_max, pymin_eq_min]
    have h30 : (0 : ℚ) ≤ min 100 (max (c - 20) 30) := by
      have hm : (30 : ℚ) ≤ max (c - 20) 30 := le_max_right _ _
      rcases le_total 100 (max (c - 20) 30) with hh | hh
      · rw [min_eq_left hh]; norm_num
      · rw [min_eq_right hh]; linarith
    rw [max_eq_right h30]
  constructor
  · intro s c r m p v h
    unfold validate_and_fix
    dsimp only
    rw [if_pos ⟨rfl, h⟩]
    exact ⟨rfl, rfl, rfl, key c⟩
  · intro s c r m p v h
    unfold validate_and_fix
    dsimp only
    rw [if_neg (by rintro ⟨hs, _⟩; simp at hs), if_pos ⟨rfl, h⟩]
    exact ⟨rfl, rfl, rfl, key c⟩

theorem inversion_behavior_witness :
    (validate_and_fix "BTC" "SELL" 80 30 0 0 1).final_signal = "BUY" ∧
    (validate_and_fix "BTC" "SELL" 80 30 0 0 1).final_confidence
      = min 100 (max (80 - 20) 30) ∧
    (validate_and_fix "BTC" "BUY" 80 80 0 0 1).final_signal = "SELL" :=
  ⟨(inversion_behavior.1 "BTC" 80 30 0 0 1 (by norm_num)).1,
   (inversion_behavior.1 "BTC" 80 30 0 0 1 (by norm_num)).2.2.2,
   (inversion_behavior.2 "BTC" 80 80 0 0 1 (by norm_num)).1⟩

/-- C5: the rule table obeys strict first-match precedence.  Every extreme
oversold reading (RSI < 30) returns BUY regardless of trend state and MACD
crossover, with adjustment exactly 20 when the momentum histogram is
positive and strictly less than 20 otherwise; symmetrically every extreme
overbought reading (RSI > 70) returns SELL, with adjustment 20 when the
histogram is negative and strictly less otherwise — so the crossover and
trend-agreement rules can produce the direction only when no extreme
reading is present. -/
theorem rule_table_extremes_precedence :
    (∀ (rsi mh ml sl : ℚ) (t : String) (c : ℚ), rsi < 30 →
      (determine_direction rsi mh ml sl t c).1 = "BUY" ∧
      (0 < mh → (determine_direction rsi mh ml sl t c).2 = 20) ∧
      (mh ≤ 0 → (determine_direction rsi mh ml sl t c).2 < 20)) ∧
    (∀ (rsi mh ml sl : ℚ) (t : String) (c : ℚ), 70 < rsi →
      (determine_direction rsi mh ml sl t c).1 = "SELL" ∧
      (mh < 0 → (determine_direction rsi mh ml sl t c).2 = 20) ∧
      (0 ≤ mh → (determine_direction rsi mh ml sl t c).2 < 20)) := by
  constructor
  · intro rsi mh ml sl t c h
    unfold determine_direction
    rw [if_pos h]
    refine ⟨?_, ?_, ?_⟩
    · split_ifs <;> rfl
    · intro hm
      rw [if_pos hm]
    · intro hm
      rw [if_neg (by linarith)]
      split_ifs <;> norm_num
  · intro rsi mh ml sl t c h
    unfold determine_direction
    rw [if_neg (by linarith), if_pos h]
    refine ⟨?_, ?_, ?_⟩
    · split_ifs <;> rfl
    · intro hm
      rw [if_pos hm]
    · intro hm
      rw [if_neg (by linarith)]
      split_ifs <;> norm_num

theorem rule_table_witness :
    (determine_direction 15 1 0 0 "uptrend" 50).1 = "BUY" ∧
    (determine_direction 15 1 0 0 "uptrend" 50).2 = 20 ∧
    (determine_direction 80 1 0 0 "uptrend" 50).1 = "SELL" :=
  ⟨(rule_table_extremes_precedence.1 15 1 0 0 "uptrend" 50 (by norm_num)).1,
   (rule_table_extremes_precedence.1 15 1 0 0 "uptrend" 50
     (by norm_num)).2.1 (by norm_num),
   (rule_table_extremes_precedence.2 80 1 0 0 "uptrend" 50 (by norm_num)).1⟩

/-- C10: the composite signal score equals
`min 1 (max 0 (0.4·safety + 0.3·liquidity + 0.2·volume + 0.1·lp))`, and
whenever each input score lies in [0, 1] the clamp is inert: the result is
the weighted sum itself and lies in [0, 1]. -/
theorem signal_score_formula (s l v lp : ℚ) :
    calculate_signal_score s l v lp
      = min 1 (max 0 (0.4 * s + 0.3 * l + 0.2 * v + 0.1 * lp)) ∧
    (0 ≤ s → s ≤ 1 → 0 ≤ l → l ≤ 1 → 0 ≤ v → v ≤ 1 → 0 ≤ lp → lp ≤ 1 →
      calculate_signal_score s l v lp
        = 0.4 * s + 0.3 * l + 0.2 * v + 0.1 * lp ∧
      0 ≤ calculate_signal_score s l v lp ∧
      calculate_signal_score s l v lp ≤ 1) := by
  have hb : calculate_signal_score s l v lp
      = min 1 (max 0 (0.4 * s + 0.3 * l + 0.2 * v + 0.1 * lp)) := by
    unfold calculate_signal_score
    dsimp only
    rw [pymin_eq_min, pymax_eq_max]
    congr 1
    congr 1
    ring
  refine ⟨hb, ?_⟩
  intro hs1 hs2 hl1 hl2 hv1 hv2 hp1 hp2
  have m1 : (0 : ℚ) ≤ 0.4 * s := mul_nonneg (by norm_num) hs1
  have m2 : (0 : ℚ) ≤ 0.3 * l := mul_nonneg (by norm_num) hl1
  have m3 : (0 : ℚ) ≤ 0.2 * v := mul_nonneg (by norm_num) hv1
  have m4 : (0 : ℚ) ≤ 0.1 * lp := mul_nonneg (by norm_num) hp1
  have u1 : (0.4 : ℚ) * s ≤ 0.4 := by nlinarith
  have u2 : (0.3 : ℚ) * l ≤ 0.3 := by nlinarith
  have u3 : (0.2 : ℚ) * v ≤ 0.2 := by nlinarith
  have u4 : (0.1 : ℚ) * lp ≤ 0.1 := by nlinarith
  have hw0 : (0 : ℚ) ≤ 0.4 * s + 0.3 * l + 0.2 * v + 0.1 * lp := by linarith
  have hw1 : (0.4 : ℚ) * s + 0.3 * l + 0.2 * v + 0.1 * lp ≤ 1 := by linarith
  rw [hb, max_eq_right hw0, min_eq_right hw1]
  exact ⟨rfl, hw0, hw1⟩

theorem signal_score_witness :
    calculate_signal_score (1/2) (1/2) (1/2) (1/2)
      = 0.4 * (1/2) + 0.3 * (1/2) + 0.2 * (1/2) + 0.1 * (1/2) ∧
    0 ≤ calculate_signal_score (1/2) (1/2) (1/2) (1/2) ∧
    calculate_signal_score (1/2) (1/2) (1/2) (1/2) ≤ 1 :=
  (signal_score_formula (1/2) (1/2) (1/2) (1/2)).2 (by norm_num) (by norm_num)
    (by norm_num) (by norm_num) (by norm_num) (by norm_num) (by norm_num)
    (by norm_num)

lemma gains_nonneg (prices : List ℚ) : ∀ x ∈ gains prices, 0 ≤ x := by
  intro x hx
  unfold gains at hx
  rw [List.mem_map] at hx
  obtain ⟨d, _, rfl⟩ := hx
  split_ifs with h <;> linarith

lemma losses_nonneg (prices : List ℚ) : ∀ x ∈ losses prices, 0 ≤ x := by
  intro x hx
  unfold losses at hx
  rw [List.mem_map] at hx
  obtain ⟨d, _, rfl⟩ := hx
  split_ifs with h <;> linarith

lemma windowAvg_nonneg (l : List ℚ) (hl : ∀ x ∈ l, 0 ≤ x) (i period : ℕ) :
    0 ≤ windowAvg l i period := by
  unfold windowAvg
  apply div_nonneg
  · apply List.sum_nonneg
    intro x hx
    exact hl x (List.drop_subset i l (List.take_subset period _ hx))
  · exact Nat.cast_nonneg period

lemma rsi_val_mem (ag al : ℚ) (hag : 0 ≤ ag) (hal : 0 ≤ al) :
    0 ≤ (if al = 0 then (100 : ℚ) else 100 - 100 / (1 + ag / al)) ∧
    (if al = 0 then (100 : ℚ) else 100 - 100 / (1 + ag / al)) ≤ 100 := by
  split_ifs with h
  · norm_num
  · have hal' : 0 < al := lt_of_le_of_ne hal (Ne.symm h)
    have hrs : 0 ≤ ag / al := div_nonneg hag hal'.le
    have hd : (0 : ℚ) < 1 + ag / al := by linarith
    have hle : 100 / (1 + ag / al) ≤ 100 := by
      rw [div_le_iff hd]
      nlinarith
    have hpos : 0 < 100 / (1 + ag / al) := by positivity
    constructor <;> linarith

/-- C9: for a price series of length `n` and a period `p` with `0 < p < n`,
every value produced by `calculate_rsi` lies in [0, 100], and whenever the
window's average loss is zero the produced RSI value is exactly 100 (the
guarded branch, so the `avg_gain / avg_loss` quotient is never formed on a
zero denominator). -/
theorem rsi_bounded (prices : List ℚ) (period : ℕ) (h1 : 0 < period)
    (h2 : period < prices.length) :
    (∀ x ∈ calculate_rsi prices period, 0 ≤ x ∧ x ≤ 100) ∧
    (∀ i, i < prices.length - period →
      windowAvg (losses prices) i period = 0 →
      (calculate_rsi prices period)[i]? = some 100) := by
  constructor
  · intro x hx
    unfold calculate_rsi at hx
    rw [List.mem_map] at hx
    obtain ⟨i, _, rfl⟩ := hx
    exact rsi_val_mem _ _ (windowAvg_nonneg _ (gains_nonneg prices) i period)
      (windowAvg_nonneg _ (losses_nonneg prices) i period)
  · intro i hi hzero
    unfold calculate_rsi
    rw [List.getElem?_map, List.getElem?_range hi]
    dsimp only [Option.map_some']
    rw [if_pos hzero]

theorem rsi_bounded_witness :
    (0 < 1) ∧ (1 < ([1, 2, 1] : List ℚ).length) ∧
    (∀ x ∈ calculate_rsi [1, 2, 1] 1, 0 ≤ x ∧ x ≤ 100) :=
  ⟨by norm_num, by norm_num,
   (rsi_bounded [1, 2, 1] 1 (by norm_num) (by norm_num)).1⟩

/-- The label of a bar depends only on the close series truncated at that
bar: `labelAt` is invariant under changes beyond index `i`. -/
lemma labelAt_eq_of_take_eq (closes closes' : List ℚ) (i : ℕ)
    (h : closes.take (i + 1) = closes'.take (i + 1)) :
    labelAt closes i = labelAt closes' i := by
  unfold labelAt
  rw [h]

/-- C1: training labels are a function of past-and-present data only.  If two
close-price series agree on all bars up to and including bar `i` (so the
second is the first with every bar after `i` arbitrarily mutated), the
labeling routine assigns the same label to bar `i` on both series. -/
theorem labels_causal (closes closes' : List ℚ) (i : ℕ)
    (h : closes.take (i + 1) = closes'.take (i + 1)) :
    (create_realistic_labels closes)[i]?
      = (create_realistic_labels closes')[i]? := by
  have hlen : min (i + 1) closes.length = min (i + 1) closes'.length := by
    have hc := congrArg List.length h
    simpa [List.length_take] using hc
  unfold create_realistic_labels
  rw [List.getElem?_map, List.getElem?_map]
  by_cases hi : i < closes.length
  · have hi' : i < closes'.length := by
      rcases Nat.lt_or_ge i closes'.length with hh | hh
      · exact hh
      · exfalso
        rw [Nat.min_def, Nat.min_def] at hlen
        split_ifs at hlen <;> omega
    rw [List.getElem?_range hi, List.getElem?_range hi']
    dsimp only [Option.map_some']
    rw [labelAt_eq_of_take_eq closes closes' i h]
  · have hi' : ¬ i < closes'.length := by
      intro hh
      rw [Nat.min_def, Nat.min_def] at hlen
      split_ifs at hlen <;> omega
    have e1 : (List.range closes.length)[i]? = none :=
      List.getElem?_eq_none (by rw [List.length_range]; omega)
    have e2 : (List.range closes'.length)[i]? = none :=
      List.getElem?_eq_none (by rw [List.length_range]; omega)
    rw [e1, e2]
    simp only [Option.map_none']

theorem labels_causal_witness :
    (([5, 7] : List ℚ).take (0 + 1) = ([5, 9] : List ℚ).take (0 + 1)) ∧
    (create_realistic_labels [5, 7])[0]?
      = (create_realistic_labels [5, 9])[0]? :=
  ⟨rfl, labels_causal [5, 7] [5, 9] 0 rfl⟩
